import Mathlib

/-!
Shallow embedding of the sigviewer SigMF ingestion pipeline:
the metadata model (src/parser/sigmf/metadata.rs), the datatype resolver
(src/parser/sigmf/datatypes.rs), the single-file parser and row projector
(src/parser/sigmf/parser.rs), the dataset assembler
(src/parser/sigmf/dataset.rs) and the filter engine (src/gui_main.rs).

Modelling conventions:
* Rust f64/f32 values are modelled as rationals.  The pipeline only copies
  these values, compares them, and performs one exact division per row
  (duration_s); none of the verified properties depends on rounding.
* u64 quantities are modelled as Nat; the only arithmetic on them is the
  truncating division file_size / sample_size, which agrees with Nat
  division.
* Filesystem interaction (reading the metadata document, checking the
  existence and size of the companion data file) is abstracted into explicit
  environment records passed to the functions that perform the reads in the
  Rust code.
* serde_json deserialization is external to the repository; it is abstracted
  as a field of type String to Option SigMFMetadata of the environment,
  likewise the stdlib numeric parsers used by the filter engine.
* Paths are modelled by their final component: a stem plus an optional
  extension.  Rust Path::with_extension replaces the extension and
  Path::extension reads it; directory components play no role in any claim.
-/

namespace Sigviewer

/-- Path model: stem of the file name plus optional extension. -/
structure FPath where
  stem : String
  ext : Option String
deriving DecidableEq

/-- Mirrors Rust Path::with_extension. -/
def FPath.withExtension (p : FPath) (e : String) : FPath :=
  { stem := p.stem, ext := some e }

/-- Mirrors Path::file_name().to_string_lossy() on our single-component
path model. -/
def FPath.fileName (p : FPath) : String :=
  match p.ext with
  | some e => p.stem ++ "." ++ e
  | none => p.stem

/-- Mirrors GeoLocation (metadata.rs lines 33-38). -/
structure GeoLocation where
  geo_type : String
  coordinates : List ℚ
deriving DecidableEq

/-- Mirrors GlobalInfo (metadata.rs lines 11-30). -/
structure GlobalInfo where
  datatype : String
  sample_rate : ℚ
  version : String
  description : Option String
  author : Option String
  license : Option String
  hardware : Option String
  geolocation : Option GeoLocation
deriving DecidableEq

/-- Mirrors CaptureInfo (metadata.rs lines 40-60).  The open extension bag
(serde_json::Value payloads) is abstracted as string pairs; no claim touches
it. -/
structure CaptureInfo where
  sample_start : Option Nat
  frequency : Option ℚ
  timestamp : Option String
  agc : Option Bool
  gain : Option ℚ
  sequence_num : Option Nat
  extra_fields : List (String × String)
deriving DecidableEq

/-- Mirrors CustomClassProbField (metadata.rs lines 115-121); class_prob is
an f32 in Rust, modelled as a rational. -/
structure CustomClassProbField where
  class_name : String
  class_prob : ℚ
deriving DecidableEq

/-- Mirrors AnnotationInfo (metadata.rs lines 62-113). -/
structure AnnotationInfo where
  sample_start : Nat
  sample_count : Nat
  freq_lower_edge : Option ℚ
  freq_upper_edge : Option ℚ
  analog_am_prob : Option ℚ
  analog_fm_prob : Option ℚ
  ask_prob : Option ℚ
  fsk_prob : Option ℚ
  psk_prob : Option ℚ
  chirp_prob : Option ℚ
  constellation_prob : Option ℚ
  css_prob : Option ℚ
  custom_classifier_probs : Option (List CustomClassProbField)
  ml_no_sig : Option Bool
  ook_prob : Option ℚ
  sdr_handle : Option String
  sig_bandwidth : Option ℚ
  sig_center_freq : Option ℚ
  sig_power_dbfs : Option ℚ
  sig_power_dbm : Option ℚ
  sig_snr : Option ℚ
  uuid : Option String
deriving DecidableEq

/-- Mirrors SigMFMetadata (metadata.rs lines 4-9). -/
structure SigMFMetadata where
  global : GlobalInfo
  captures : List CaptureInfo
  annotations : Option (List AnnotationInfo)
deriving DecidableEq

/-- Mirrors SigMFDataType (datatypes.rs lines 7-11). -/
inductive SigMFDataType
  | cf32Le
  | ci16Le
deriving DecidableEq

/-- The error kinds produced by the single-file parsing pipeline.  In Rust
these are anyhow errors distinguished by provenance and message; here they
are an inductive type.  ioError is a std::fs::read_to_string failure,
metadataParse a serde_json failure, unsupportedDatatype carries the offending
datatype string, missingDataFile carries the expected companion path. -/
inductive SigErr
  | ioError
  | metadataParse
  | unsupportedDatatype (s : String)
  | missingDataFile (path : FPath)
deriving DecidableEq

/-- Mirrors SigMFDataType::from_string (datatypes.rs lines 14-20). -/
def SigMFDataType.from_string (s : String) : Except SigErr SigMFDataType :=
  match s with
  | "cf32_le" => .ok .cf32Le
  | "ci16_le" => .ok .ci16Le
  | _ => .error (.unsupportedDatatype s)

/-- Mirrors SigMFDataType::sample_size_bytes (datatypes.rs lines 22-27). -/
def SigMFDataType.sample_size_bytes : SigMFDataType → Nat
  | .cf32Le => 8
  | .ci16Le => 4

/-- Mirrors the SigMFParser struct (parser.rs lines 7-11). -/
structure SigMFParser where
  metadata : SigMFMetadata
  data_type : SigMFDataType
  data_file_path : FPath
deriving DecidableEq

/-- Environment for SigMFParser::from_meta_file: the outcome of reading the
metadata document, the serde_json deserializer, and companion-file
existence. -/
structure MetaEnv where
  content : Option String
  parse : String → Option SigMFMetadata
  fileExists : FPath → Bool

/-- Mirrors SigMFParser::from_meta_file (parser.rs lines 14-30). -/
def SigMFParser.from_meta_file (env : MetaEnv) (meta_path : FPath) :
    Except SigErr SigMFParser :=
  match env.content with
  | none => .error .ioError
  | some meta_content =>
    match env.parse meta_content with
    | none => .error .metadataParse
    | some metadata =>
      match SigMFDataType.from_string metadata.global.datatype with
      | .error e => .error e
      | .ok data_type =>
        let data_file_path := FPath.withExtension meta_path "sigmf-data"
        if env.fileExists data_file_path then
          .ok { metadata := metadata, data_type := data_type,
                data_file_path := data_file_path }
        else
          .error (.missingDataFile data_file_path)

/-- Mirrors SigMFParser::is_ml_annotation (parser.rs lines 32-37).  The Rust
method's self receiver is unused, so the embedding drops it; the name is
shortened for lexical reasons only. -/
def is_ml_ann (ann : AnnotationInfo) : Bool :=
  ann.sig_center_freq.isSome ||
  ann.ask_prob.isSome ||
  ann.psk_prob.isSome ||
  ann.custom_classifier_probs.isSome

/-- Mirrors SigMFParser::get_custom_classifier_prob_for_annotation
(parser.rs lines 41-51); the self receiver is unused and dropped, the name
shortened for lexical reasons only. -/
def get_custom_classifier_prob_for_ann (mlAnn : Option AnnotationInfo)
    (class_name : String) : Option ℚ := do
  let a ← mlAnn
  let probs ← a.custom_classifier_probs
  let c ← probs.find? (fun c => c.class_name == class_name)
  pure c.class_prob

/-- One flat output row: the 40 columns built by
SigMFParser::create_single_row_dataframe (parser.rs lines 145-251), in the
source order. -/
structure SummaryRow where
  meta_filename : String
  data_filename : String
  num_samples : Nat
  file_size_bytes : Nat
  duration_s : ℚ
  sample_rate_hz : ℚ
  datatype : String
  sigmf_version : String
  author : String
  hardware : String
  latitude : ℚ
  longitude : ℚ
  geo_type : String
  center_freq_hz : ℚ
  capture_datetime : String
  gain : ℚ
  agc : Bool
  sequence_num : Nat
  snr_db : ℚ
  power_dbm : ℚ
  power_dbfs : ℚ
  sig_bandwidth_hz : ℚ
  sig_center_freq_hz : ℚ
  ml_ask_prob : ℚ
  ml_psk_prob : ℚ
  ml_fsk_prob : ℚ
  ml_am_prob : ℚ
  ml_fm_prob : ℚ
  ml_ook_prob : ℚ
  ml_chirp_prob : ℚ
  ml_constellation_prob : ℚ
  ml_css_prob : ℚ
  ml_wifi_prob : ℚ
  ml_cell_prob : ℚ
  ml_radar_prob : ℚ
  ml_no_sig : Bool
  sig_uuid : String
  sdr_handle : String
  freq_lower_edge_hz : ℚ
  freq_upper_edge_hz : ℚ
deriving DecidableEq

/-- Mirrors SigMFParser::create_single_row_dataframe (parser.rs
lines 133-254).  The df! macro builds a one-row DataFrame; here that row is
the SummaryRow record, each column expression translated verbatim. -/
def SigMFParser.create_single_row_dataframe (self : SigMFParser)
    (meta_filename data_filename : String)
    (num_samples file_size_bytes : Nat)
    (global : GlobalInfo)
    (capture_with_freq capture_with_datetime capture_with_ds_info :
      Option CaptureInfo)
    (mlAnn : Option AnnotationInfo) : SummaryRow :=
  { meta_filename := meta_filename
    data_filename := data_filename
    num_samples := num_samples
    file_size_bytes := file_size_bytes
    duration_s := (num_samples : ℚ) / global.sample_rate
    sample_rate_hz := global.sample_rate
    datatype := global.datatype
    sigmf_version := global.version
    author := global.author.getD ""
    hardware := global.hardware.getD ""
    latitude := (global.geolocation.bind (fun g => g.coordinates[0]?)).getD 0
    longitude := (global.geolocation.bind (fun g => g.coordinates[1]?)).getD 0
    geo_type := (global.geolocation.map (fun g => g.geo_type)).getD ""
    center_freq_hz := (capture_with_freq.bind (fun c => c.frequency)).getD 0
    capture_datetime :=
      (capture_with_datetime.bind (fun c => c.timestamp)).getD ""
    gain := (capture_with_ds_info.bind (fun c => c.gain)).getD 0
    agc := (capture_with_ds_info.bind (fun c => c.agc)).getD false
    sequence_num := (capture_with_ds_info.bind (fun c => c.sequence_num)).getD 0
    snr_db := (mlAnn.bind (fun a => a.sig_snr)).getD 0
    power_dbm := (mlAnn.bind (fun a => a.sig_power_dbm)).getD 0
    power_dbfs := (mlAnn.bind (fun a => a.sig_power_dbfs)).getD 0
    sig_bandwidth_hz := (mlAnn.bind (fun a => a.sig_bandwidth)).getD 0
    sig_center_freq_hz := (mlAnn.bind (fun a => a.sig_center_freq)).getD 0
    ml_ask_prob := (mlAnn.bind (fun a => a.ask_prob)).getD 0
    ml_psk_prob := (mlAnn.bind (fun a => a.psk_prob)).getD 0
    ml_fsk_prob := (mlAnn.bind (fun a => a.fsk_prob)).getD 0
    ml_am_prob := (mlAnn.bind (fun a => a.analog_am_prob)).getD 0
    ml_fm_prob := (mlAnn.bind (fun a => a.analog_fm_prob)).getD 0
    ml_ook_prob := (mlAnn.bind (fun a => a.ook_prob)).getD 0
    ml_chirp_prob := (mlAnn.bind (fun a => a.chirp_prob)).getD 0
    ml_constellation_prob := (mlAnn.bind (fun a => a.constellation_prob)).getD 0
    ml_css_prob := (mlAnn.bind (fun a => a.css_prob)).getD 0
    ml_wifi_prob := (get_custom_classifier_prob_for_ann mlAnn "wifi").getD 0
    ml_cell_prob := (get_custom_classifier_prob_for_ann mlAnn "cell").getD 0
    ml_radar_prob := (get_custom_classifier_prob_for_ann mlAnn "radar").getD 0
    ml_no_sig := (mlAnn.bind (fun a => a.ml_no_sig)).getD false
    sig_uuid := (mlAnn.bind (fun a => a.uuid)).getD ""
    sdr_handle := (mlAnn.bind (fun a => a.sdr_handle)).getD ""
    freq_lower_edge_hz :=
      ((self.metadata.annotations.bind List.head?).bind
        (fun a => a.freq_lower_edge)).getD 0
    freq_upper_edge_hz :=
      ((self.metadata.annotations.bind List.head?).bind
        (fun a => a.freq_upper_edge)).getD 0 }

/-- The ml_annotations local of to_summary_rows (parser.rs lines 89-91):
annotations.as_ref().map(filter is_ml_annotation).unwrap_or_default(). -/
def SigMFParser.ml_annotations (self : SigMFParser) : List AnnotationInfo :=
  (self.metadata.annotations.getD []).filter is_ml_ann

/-- State of the filesystem at the companion data path, read by
to_summary_rows (parser.rs lines 71-78). -/
structure FsState where
  dataExists : Bool
  dataSize : Nat
deriving DecidableEq

/-- Mirrors SigMFParser::to_summary_rows (parser.rs lines 53-131).  The Rust
function returns Result only because fs::metadata and DataFrame vstack are
fallible; both are total here (the filesystem is an explicit FsState and
rows share one schema by construction), so the embedding is total. -/
def SigMFParser.to_summary_rows (self : SigMFParser) (fs : FsState) :
    List SummaryRow :=
  let data_filename := FPath.fileName self.data_file_path
  let meta_filename :=
    FPath.fileName (FPath.withExtension self.data_file_path "sigmf-meta")
  let nf : Nat × Nat :=
    if fs.dataExists then
      (fs.dataSize / self.data_type.sample_size_bytes, fs.dataSize)
    else (0, 0)
  let capture_with_freq :=
    self.metadata.captures.find? (fun c => c.frequency.isSome)
  let capture_with_datetime :=
    self.metadata.captures.find? (fun c => c.timestamp.isSome)
  let capture_with_ds_info :=
    self.metadata.captures.find? (fun c => c.gain.isSome || c.agc.isSome)
  let mls := self.ml_annotations
  if mls.isEmpty then
    [self.create_single_row_dataframe meta_filename data_filename nf.1 nf.2
      self.metadata.global capture_with_freq capture_with_datetime
      capture_with_ds_info none]
  else
    mls.map fun a =>
      self.create_single_row_dataframe meta_filename data_filename nf.1 nf.2
        self.metadata.global capture_with_freq capture_with_datetime
        capture_with_ds_info (some a)

/-- Mirrors SigMFParser::to_summary_row (parser.rs lines 256-258). -/
def SigMFParser.to_summary_row (self : SigMFParser) (fs : FsState) :
    List SummaryRow :=
  self.to_summary_rows fs

/-- One item yielded by the walkdir iterator in SigMFDataset::from_directory
(dataset.rs line 19): either a directory entry (of which only the path is
used) or a traversal error (its message). -/
inductive WalkEntry
  | ok (path : FPath)
  | err (msg : String)
deriving DecidableEq

/-- Errors of SigMFDataset::from_directory: a propagated traversal error
(the entry? at dataset.rs line 20) or the no-valid-files bailout
(dataset.rs line 50). -/
inductive DirErr
  | walk (msg : String)
  | noValidFiles
deriving DecidableEq

/-- Per-path filesystem/deserializer environment for the directory walk. -/
structure DirEnv where
  content : FPath → Option String
  parse : String → Option SigMFMetadata
  fileExists : FPath → Bool
  dataSize : FPath → Nat

/-- The per-file body of the from_directory loop (dataset.rs lines 29-43):
SigMFParser::from_meta_file followed by to_summary_row. -/
def processFile (env : DirEnv) (path : FPath) :
    Except SigErr (List SummaryRow) :=
  match SigMFParser.from_meta_file
      { content := env.content path, parse := env.parse,
        fileExists := env.fileExists } path with
  | .error e => .error e
  | .ok p =>
    .ok (p.to_summary_rows
      { dataExists := env.fileExists p.data_file_path,
        dataSize := env.dataSize p.data_file_path })

/-- The walk loop of from_directory (dataset.rs lines 19-45): entry? aborts
on a traversal error; otherwise files with the sigmf-meta extension are
processed and successful per-file row batches are accumulated in discovery
order, per-file failures being reported and skipped. -/
def walkRows (env : DirEnv) : List WalkEntry →
    Except DirErr (List (List SummaryRow))
  | [] => .ok []
  | WalkEntry.err msg :: _ => .error (.walk msg)
  | WalkEntry.ok path :: rest =>
    if path.ext = some "sigmf-meta" then
      match processFile env path with
      | .ok rows => (walkRows env rest).map (fun rs => rows :: rs)
      | .error _ => walkRows env rest
    else
      walkRows env rest

/-- Mirrors SigMFDataset::from_directory (dataset.rs lines 11-61): walk,
bail with NoValidFiles when no file produced a row batch, otherwise vstack
all batches (list concatenation) in discovery order. -/
def from_directory (env : DirEnv) (entries : List WalkEntry) :
    Except DirErr (List SummaryRow) :=
  match walkRows env entries with
  | .error e => .error e
  | .ok rs => if rs.isEmpty then .error .noValidFiles else .ok rs.flatten

/-- A table cell of the assembled dataset, tagged with its polars column
dtype as dispatched on by apply_filters (gui_main.rs lines 220-248).
Float64/Float32 columns behave identically there and share the float
constructor; likewise Int64/Int32/UInt64/UInt32 share int, and every
other dtype shares other. -/
inductive Cell
  | str (s : String)
  | float (q : ℚ)
  | int (n : ℤ)
  | boolean (b : Bool)
  | other (q : ℚ)
deriving DecidableEq

/-- A dataset row: column name to cell.  polars stores columns, not rows,
but its lazy filter semantics is row-wise, so a row-major model is
equivalent for a uniform-schema frame. -/
abbrev Row := List (String × Cell)

/-- The stdlib numeric parsers used by apply_filters
(str::parse::<f64> and str::parse::<i64>), abstracted. -/
structure ParseEnv where
  parseF64 : String → Option ℚ
  parseI64 : String → Option ℤ

/-- The per-cell predicate built by the dtype dispatch of apply_filters
(gui_main.rs lines 220-248) for a non-empty filter text. -/
def cellPasses (env : ParseEnv) (filter_text : String) : Cell → Bool
  | .str s => s == filter_text
  | .float q =>
    match env.parseF64 filter_text with
    | some num => decide (num ≤ q)
    | none => true
  | .int n =>
    match env.parseI64 filter_text with
    | some num => decide (num ≤ n)
    | none => true
  | .boolean b =>
    if filter_text.toLower == "true" then b
    else if filter_text.toLower == "false" then !b
    else true
  | .other q =>
    match env.parseF64 filter_text with
    | some num => decide (q = num)
    | none => true

/-- Whether one row survives the conjunction of filters built by
apply_filters (gui_main.rs lines 217-251): empty filter text contributes no
constraint, a filter naming a column the dataset lacks contributes no
constraint (the dataset.column check at line 219; on a uniform-schema frame
that is per-row lookup failure), otherwise the dtype-dispatched predicate
applies. -/
def rowPasses (env : ParseEnv) (filters : List (String × String))
    (row : Row) : Bool :=
  filters.all fun f =>
    if f.2.isEmpty then true
    else
      match row.lookup f.1 with
      | some c => cellPasses env f.2 c
      | none => true

/-- Mirrors the filtering core of apply_filters (gui_main.rs lines 214-253):
the lazy frame with all predicates applied, collected.  The surrounding GUI
caching (filter-hash short-circuit) and error plumbing are display state,
not part of the engine. -/
def apply_filters (env : ParseEnv) (filters : List (String × String))
    (dataset : List Row) : List Row :=
  dataset.filter (rowPasses env filters)

/-! Helper lemmas shared by the claims about the row projector. -/

/-- Every row emitted by to_summary_rows is create_single_row_dataframe
applied to the shared file/global/capture arguments and some optional ML
annotation. -/
theorem mem_to_summary_rows (p : SigMFParser) (fs : FsState) (r : SummaryRow)
    (hr : r ∈ p.to_summary_rows fs) :
    ∃ mlAnn : Option AnnotationInfo,
      r = p.create_single_row_dataframe
        (FPath.fileName (FPath.withExtension p.data_file_path "sigmf-meta"))
        (FPath.fileName p.data_file_path)
        (if fs.dataExists then
          fs.dataSize / p.data_type.sample_size_bytes else 0)
        (if fs.dataExists then fs.dataSize else 0)
        p.metadata.global
        (p.metadata.captures.find? (fun c => c.frequency.isSome))
        (p.metadata.captures.find? (fun c => c.timestamp.isSome))
        (p.metadata.captures.find? (fun c => c.gain.isSome || c.agc.isSome))
        mlAnn := by
  obtain ⟨de, ds⟩ := fs
  simp only [SigMFParser.to_summary_rows] at hr
  cases de <;> by_cases h : p.ml_annotations.isEmpty <;>
    simp only [h, if_true, if_false, Bool.false_eq_true, ite_true, ite_false,
      List.mem_singleton, List.mem_map] at hr
  · exact ⟨none, by simpa using hr⟩
  · obtain ⟨a, _, ha⟩ := hr
    exact ⟨some a, by simpa using ha.symm⟩
  · exact ⟨none, by simpa using hr⟩
  · obtain ⟨a, _, ha⟩ := hr
    exact ⟨some a, by simpa using ha.symm⟩

/-- C3: for every produced row, num_samples equals file_size_bytes divided
(truncating Nat division) by the sample size of the resolved datatype,
where cf32_le samples are 8 bytes and ci16_le samples 4 bytes; and when the
companion binary file is absent at projection time both num_samples and
file_size_bytes are zero. -/
theorem num_samples_eq_div (p : SigMFParser) (fs : FsState) (r : SummaryRow)
    (hr : r ∈ p.to_summary_rows fs) :
    r.num_samples = r.file_size_bytes / p.data_type.sample_size_bytes ∧
    (fs.dataExists = false → r.num_samples = 0 ∧ r.file_size_bytes = 0) ∧
    SigMFDataType.sample_size_bytes .cf32Le = 8 ∧
    SigMFDataType.sample_size_bytes .ci16Le = 4 := by
  obtain ⟨mlAnn, rfl⟩ := mem_to_summary_rows p fs r hr
  refine ⟨?_, ?_, rfl, rfl⟩
  · cases h : fs.dataExists <;>
      simp [SigMFParser.create_single_row_dataframe, h]
  · intro h
    simp [SigMFParser.create_single_row_dataframe, h]

/-- C4: capture-derived row fields come from three independent first-match
scans over the capture list: center_freq_hz from the first capture with a
frequency, capture_datetime from the first with a timestamp, and gain, agc
and sequence_num from the first with a gain or an AGC flag; each field
falls back to 0 / empty string / false when no capture qualifies. -/
theorem capture_fields_first_match (p : SigMFParser) (fs : FsState)
    (r : SummaryRow) (hr : r ∈ p.to_summary_rows fs) :
    r.center_freq_hz =
      ((p.metadata.captures.find? (fun c => c.frequency.isSome)).bind
        (fun c => c.frequency)).getD 0 ∧
    r.capture_datetime =
      ((p.metadata.captures.find? (fun c => c.timestamp.isSome)).bind
        (fun c => c.timestamp)).getD "" ∧
    r.gain =
      ((p.metadata.captures.find?
        (fun c => c.gain.isSome || c.agc.isSome)).bind
          (fun c => c.gain)).getD 0 ∧
    r.agc =
      ((p.metadata.captures.find?
        (fun c => c.gain.isSome || c.agc.isSome)).bind
          (fun c => c.agc)).getD false ∧
    r.sequence_num =
      ((p.metadata.captures.find?
        (fun c => c.gain.isSome || c.agc.isSome)).bind
          (fun c => c.sequence_num)).getD 0 := by
  obtain ⟨mlAnn, rfl⟩ := mem_to_summary_rows p fs r hr
  exact ⟨rfl, rfl, rfl, rfl, rfl⟩

/-- C6: for every emitted row of a file, freq_lower_edge_hz and
freq_upper_edge_hz are taken from the first annotation of the file's full
annotation list (0 when there is none or the edge is absent), uniformly for
every row of the file, independent of the row's own ML annotation. -/
theorem freq_edges_from_first_ann (p : SigMFParser) (fs : FsState)
    (r : SummaryRow) (hr : r ∈ p.to_summary_rows fs) :
    r.freq_lower_edge_hz =
      ((p.metadata.annotations.bind List.head?).bind
        (fun a => a.freq_lower_edge)).getD 0 ∧
    r.freq_upper_edge_hz =
      ((p.metadata.annotations.bind List.head?).bind
        (fun a => a.freq_upper_edge)).getD 0 := by
  obtain ⟨mlAnn, rfl⟩ := mem_to_summary_rows p fs r hr
  exact ⟨rfl, rfl⟩

/-! Claim C2: the ML-annotation classification. -/

/-- The classification predicate exactly as the claim words it: center
frequency, ASK probability, PSK probability, or a NON-EMPTY
custom-classifier list. -/
def isMlAnnClaim (ann : AnnotationInfo) : Prop :=
  ann.sig_center_freq.isSome = true ∨ ann.ask_prob.isSome = true ∨
  ann.psk_prob.isSome = true ∨
  ∃ l, ann.custom_classifier_probs = some l ∧ l ≠ []

/-- An annotation whose only ML-ish field is a present but EMPTY
custom-classifier list. -/
def annEmptyCustom : AnnotationInfo :=
  { sample_start := 0
    sample_count := 0
    freq_lower_edge := none
    freq_upper_edge := none
    analog_am_prob := none
    analog_fm_prob := none
    ask_prob := none
    fsk_prob := none
    psk_prob := none
    chirp_prob := none
    constellation_prob := none
    css_prob := none
    custom_classifier_probs := some []
    ml_no_sig := none
    ook_prob := none
    sdr_handle := none
    sig_bandwidth := none
    sig_center_freq := none
    sig_power_dbfs := none
    sig_power_dbm := none
    sig_snr := none
    uuid := none }

/-- C2 counterexample: an annotation carrying only an empty (but present)
custom-classifier list is classified as an ML annotation by the code,
although it carries none of the four marks the claim lists (its
custom-classifier list is not non-empty). -/
theorem is_ml_ann_claim_counterexample :
    is_ml_ann annEmptyCustom = true ∧ ¬ isMlAnnClaim annEmptyCustom := by
  refine ⟨rfl, ?_⟩
  rintro (h | h | h | ⟨l, hl, hne⟩)
  · simp [annEmptyCustom] at h
  · simp [annEmptyCustom] at h
  · simp [annEmptyCustom] at h
  · rw [show annEmptyCustom.custom_classifier_probs = some [] from rfl] at hl
    exact hne (Option.some.injEq _ _ ▸ hl).symm

/-- C2 amended: an annotation is classified as an ML annotation iff it
carries a center frequency, an ASK probability, a PSK probability, or a
PRESENT custom-classifier list (possibly empty). -/
theorem is_ml_ann_char (ann : AnnotationInfo) :
    is_ml_ann ann = true ↔
      (ann.sig_center_freq.isSome = true ∨ ann.ask_prob.isSome = true ∨
       ann.psk_prob.isSome = true ∨
       ann.custom_classifier_probs.isSome = true) := by
  simp [is_ml_ann, Bool.or_eq_true, or_assoc]

/-! Claim C1: row multiplicity and the shared/per-row column split. -/

/-- The file/global/capture-derived columns of a row: every column except
the twenty derived from the row's own ML annotation.  The frequency-edge
columns belong here because they are computed from the file's first
annotation, identically for every row of the file (claim C6). -/
def sharedFields (r : SummaryRow) :
    String × String × Nat × Nat × ℚ × ℚ × String × String × String ×
      String × ℚ × ℚ × String × ℚ × String × ℚ × Bool × Nat × ℚ × ℚ :=
  (r.meta_filename, r.data_filename, r.num_samples, r.file_size_bytes,
   r.duration_s, r.sample_rate_hz, r.datatype, r.sigmf_version, r.author,
   r.hardware, r.latitude, r.longitude, r.geo_type, r.center_freq_hz,
   r.capture_datetime, r.gain, r.agc, r.sequence_num,
   r.freq_lower_edge_hz, r.freq_upper_edge_hz)

/-- The twenty columns of a row that are derived from the row's own ML
annotation. -/
def mlFields (r : SummaryRow) :
    ℚ × ℚ × ℚ × ℚ × ℚ × ℚ × ℚ × ℚ × ℚ × ℚ × ℚ × ℚ × ℚ × ℚ × ℚ × ℚ × ℚ ×
      Bool × String × String :=
  (r.snr_db, r.power_dbm, r.power_dbfs, r.sig_bandwidth_hz,
   r.sig_center_freq_hz, r.ml_ask_prob, r.ml_psk_prob, r.ml_fsk_prob,
   r.ml_am_prob, r.ml_fm_prob, r.ml_ook_prob, r.ml_chirp_prob,
   r.ml_constellation_prob, r.ml_css_prob, r.ml_wifi_prob, r.ml_cell_prob,
   r.ml_radar_prob, r.ml_no_sig, r.sig_uuid, r.sdr_handle)

/-- The documented defaults of the ML-annotation-derived columns: 0 for the
numeric ones, false for the flag, empty string for the identifiers. -/
def defaultMlFields :
    ℚ × ℚ × ℚ × ℚ × ℚ × ℚ × ℚ × ℚ × ℚ × ℚ × ℚ × ℚ × ℚ × ℚ × ℚ × ℚ × ℚ ×
      Bool × String × String :=
  (0, 0, 0, 0, 0, 0, 0, 0, 0, 0, 0, 0, 0, 0, 0, 0, 0, false, "", "")

/-- The ML-annotation-derived column values projected out of one
annotation, following the column expressions of
create_single_row_dataframe specialised to a present annotation. -/
def annMlFields (a : AnnotationInfo) :
    ℚ × ℚ × ℚ × ℚ × ℚ × ℚ × ℚ × ℚ × ℚ × ℚ × ℚ × ℚ × ℚ × ℚ × ℚ × ℚ × ℚ ×
      Bool × String × String :=
  (a.sig_snr.getD 0, a.sig_power_dbm.getD 0, a.sig_power_dbfs.getD 0,
   a.sig_bandwidth.getD 0, a.sig_center_freq.getD 0, a.ask_prob.getD 0,
   a.psk_prob.getD 0, a.fsk_prob.getD 0, a.analog_am_prob.getD 0,
   a.analog_fm_prob.getD 0, a.ook_prob.getD 0, a.chirp_prob.getD 0,
   a.constellation_prob.getD 0, a.css_prob.getD 0,
   (get_custom_classifier_prob_for_ann (some a) "wifi").getD 0,
   (get_custom_classifier_prob_for_ann (some a) "cell").getD 0,
   (get_custom_classifier_prob_for_ann (some a) "radar").getD 0,
   a.ml_no_sig.getD false, a.uuid.getD "", a.sdr_handle.getD "")

/-- C1: if a parsed file has zero ML annotations, to_summary_rows emits
exactly one row whose ML-annotation-derived columns all hold their
documented defaults; if it has one or more, it emits exactly one row per ML
annotation in list order, all rows agreeing on every
file/global/capture-derived column, with the ML-annotation-derived columns
of the i-th row projected from the i-th ML annotation. -/
theorem to_summary_rows_multiplicity (p : SigMFParser) (fs : FsState) :
    (p.ml_annotations = [] →
      (p.to_summary_rows fs).length = 1 ∧
      ∀ r ∈ p.to_summary_rows fs, mlFields r = defaultMlFields) ∧
    (p.ml_annotations ≠ [] →
      (p.to_summary_rows fs).length = p.ml_annotations.length ∧
      (∀ r ∈ p.to_summary_rows fs, ∀ s ∈ p.to_summary_rows fs,
        sharedFields r = sharedFields s) ∧
      (p.to_summary_rows fs).map mlFields =
        p.ml_annotations.map annMlFields) := by
  constructor
  · intro h
    simp only [SigMFParser.to_summary_rows, h, List.isEmpty_nil, ite_true]
    refine ⟨rfl, ?_⟩
    intro r hr
    rw [List.mem_singleton] at hr
    subst hr
    rfl
  · intro h
    have h' : p.ml_annotations.isEmpty = false := by
      cases hml : p.ml_annotations with
      | nil => exact absurd hml h
      | cons a t => rfl
    simp only [SigMFParser.to_summary_rows, h', Bool.false_eq_true,
      ite_false]
    refine ⟨List.length_map _ _, ?_, ?_⟩
    · intro r hr s hs
      rw [List.mem_map] at hr hs
      obtain ⟨a, _, rfl⟩ := hr
      obtain ⟨b, _, rfl⟩ := hs
      rfl
    · rw [List.map_map]
      exact List.map_congr_left (fun a _ => rfl)

/-! Claims C5 and C9: the filter engine. -/

/-- The per-row filter semantics exactly as the claim words it, for a
refinement comparison with the code's rowPasses: blank entries impose no
constraint, a string cell must equal the text exactly, a float or integer
cell must be at least the parsed number (unparsable text imposing no
constraint), a boolean cell must match a case-insensitive true/false text
(other text imposing no constraint), and any other cell must equal the
parsed float exactly; all active predicates conjoined. -/
def rowPassesClaim (env : ParseEnv) (filters : List (String × String))
    (row : Row) : Prop :=
  ∀ f ∈ filters, f.2 ≠ "" →
    ∀ c, row.lookup f.1 = some c →
      match c with
      | .str s => s = f.2
      | .float q => ∀ num, env.parseF64 f.2 = some num → num ≤ q
      | .int n => ∀ num, env.parseI64 f.2 = some num → num ≤ n
      | .boolean b =>
        (f.2.toLower = "true" → b = true) ∧
        (f.2.toLower = "false" → b = false)
      | .other q => ∀ num, env.parseF64 f.2 = some num → q = num

/-- The dtype-dispatched cell predicate agrees with the claim's wording. -/
theorem cellPasses_iff (env : ParseEnv) (t : String) (c : Cell) :
    cellPasses env t c = true ↔
      (match c with
      | .str s => s = t
      | .float q => ∀ num, env.parseF64 t = some num → num ≤ q
      | .int n => ∀ num, env.parseI64 t = some num → num ≤ n
      | .boolean b =>
        (t.toLower = "true" → b = true) ∧ (t.toLower = "false" → b = false)
      | .other q => ∀ num, env.parseF64 t = some num → q = num) := by
  cases c with
  | str s => simp [cellPasses]
  | float q => cases h : env.parseF64 t <;> simp [cellPasses, h]
  | int n => cases h : env.parseI64 t <;> simp [cellPasses, h]
  | boolean b =>
    by_cases ht : t.toLower = "true"
    · have : ¬ t.toLower = "false" := by rw [ht]; decide
      simp [cellPasses, ht, this]
    · by_cases hf : t.toLower = "false"
      · simp [cellPasses, ht, hf]
      · simp [cellPasses, ht, hf]
  | other q => cases h : env.parseF64 t <;> simp [cellPasses, h]

/-- The code's row predicate is equivalent to the claim's wording. -/
theorem rowPasses_iff (env : ParseEnv) (filters : List (String × String))
    (row : Row) :
    rowPasses env filters row = true ↔ rowPassesClaim env filters row := by
  rw [rowPasses, List.all_eq_true]
  constructor
  · intro h f hf hne c hc
    have := h f hf
    rw [if_neg (by simpa [String.isEmpty_iff] using hne), hc] at this
    exact (cellPasses_iff env f.2 c).mp this
  · intro h f hf
    by_cases hne : f.2.isEmpty
    · rw [if_pos hne]
    · rw [if_neg hne]
      cases hc : row.lookup f.1 with
      | none => rfl
      | some c =>
        exact (cellPasses_iff env f.2 c).mpr
          (h f hf (by simpa [String.isEmpty_iff] using hne) c hc)

/-- C5: apply_filters keeps exactly the rows satisfying the claim's
type-dispatched per-column semantics (string equality, numeric at-least
with unparsable text ignored, case-insensitive boolean match, float
equality for other column types), combined with logical AND, blank entries
imposing no constraint; and when every filter entry is blank the dataset is
returned unchanged. -/
theorem apply_filters_dispatch (env : ParseEnv)
    (filters : List (String × String)) (dataset : List Row) :
    (∀ r, r ∈ apply_filters env filters dataset ↔
      r ∈ dataset ∧ rowPassesClaim env filters r) ∧
    ((∀ f ∈ filters, f.2 = "") →
      apply_filters env filters dataset = dataset) := by
  constructor
  · intro r
    rw [apply_filters, List.mem_filter, rowPasses_iff]
  · intro h
    rw [apply_filters, List.filter_eq_self]
    intro r _
    rw [rowPasses_iff]
    intro f hf hne
    exact absurd (h f hf) hne

/-- C9: the filter engine is idempotent: applying the same non-empty filter
mapping twice yields the same dataset as applying it once. -/
theorem apply_filters_idempotent (env : ParseEnv)
    (filters : List (String × String)) (_hne : filters ≠ [])
    (dataset : List Row) :
    apply_filters env filters (apply_filters env filters dataset) =
      apply_filters env filters dataset := by
  rw [apply_filters, apply_filters, List.filter_filter]
  simp only [Bool.and_self]

/-! Claim C7: the single-file parser. -/

/-- C7: from_meta_file performs its steps in order and returns an error
with no partial parser on any failure: an unreadable document is an IO
error; a document serde cannot deserialize is a metadata-parse error; a
datatype string other than the two supported encodings makes from_string
fail with unsupportedDatatype carrying the offending string, which
from_meta_file propagates; a missing companion file (the metadata path with
its extension replaced by sigmf-data) is missingDataFile naming that path;
and success happens exactly when every step succeeds, yielding the parser
assembled from the parsed metadata, resolved datatype and companion
path. -/
theorem from_meta_file_steps (env : MetaEnv) (meta_path : FPath) :
    (∀ s, s ≠ "cf32_le" → s ≠ "ci16_le" →
      SigMFDataType.from_string s = .error (.unsupportedDatatype s)) ∧
    (env.content = none →
      SigMFParser.from_meta_file env meta_path = .error .ioError) ∧
    (∀ s, env.content = some s → env.parse s = none →
      SigMFParser.from_meta_file env meta_path = .error .metadataParse) ∧
    (∀ s m e, env.content = some s → env.parse s = some m →
      SigMFDataType.from_string m.global.datatype = .error e →
      SigMFParser.from_meta_file env meta_path = .error e) ∧
    (∀ s m dt, env.content = some s → env.parse s = some m →
      SigMFDataType.from_string m.global.datatype = .ok dt →
      env.fileExists (FPath.withExtension meta_path "sigmf-data") = false →
      SigMFParser.from_meta_file env meta_path =
        .error (.missingDataFile
          (FPath.withExtension meta_path "sigmf-data"))) ∧
    (∀ p, SigMFParser.from_meta_file env meta_path = .ok p ↔
      ∃ s m dt, env.content = some s ∧ env.parse s = some m ∧
        SigMFDataType.from_string m.global.datatype = .ok dt ∧
        env.fileExists (FPath.withExtension meta_path "sigmf-data") = true ∧
        p = { metadata := m, data_type := dt,
              data_file_path :=
                FPath.withExtension meta_path "sigmf-data" }) := by
  refine ⟨?_, ?_, ?_, ?_, ?_, ?_⟩
  · intro s h1 h2
    unfold SigMFDataType.from_string
    split <;> simp_all
  · intro h
    simp [SigMFParser.from_meta_file, h]
  · intro s h1 h2
    simp [SigMFParser.from_meta_file, h1, h2]
  · intro s m e h1 h2 h3
    simp [SigMFParser.from_meta_file, h1, h2, h3]
  · intro s m dt h1 h2 h3 h4
    simp [SigMFParser.from_meta_file, h1, h2, h3, h4]
  · intro p
    constructor
    · intro hp
      unfold SigMFParser.from_meta_file at hp
      split at hp
      · exact absurd hp (by simp)
      · rename_i s hc
        split at hp
        · exact absurd hp (by simp)
        · rename_i m hm
          split at hp
          · exact absurd hp (by simp)
          · rename_i dt hd
            dsimp only at hp
            split at hp
            · rename_i hex
              refine ⟨s, m, dt, hc, hm, hd, hex, ?_⟩
              injection hp with hp
              exact hp.symm
            · exact absurd hp (by simp)
    · rintro ⟨s, m, dt, hc, hm, hd, hex, rfl⟩
      simp [SigMFParser.from_meta_file, hc, hm, hd, hex]

/-! Claims C8 and C10: the dataset assembler. -/

/-- The row batches one walk entry contributes during assembly: nothing for
a non-metadata path or a file whose parse or projection fails, the file's
batch of rows otherwise.  (Traversal-error entries abort the walk and never
contribute; see the C10 theorem.) -/
def entryBatches (env : DirEnv) : WalkEntry → List (List SummaryRow)
  | WalkEntry.err _ => []
  | WalkEntry.ok path =>
    if path.ext = some "sigmf-meta" then
      match processFile env path with
      | .ok rows => [rows]
      | .error _ => []
    else []

/-- On an error-free walk, walkRows collects exactly the per-entry batches
in discovery order. -/
theorem walkRows_eq_ok (env : DirEnv) (entries : List WalkEntry)
    (h : ∀ msg, WalkEntry.err msg ∉ entries) :
    walkRows env entries = .ok (entries.flatMap (entryBatches env)) := by
  induction entries with
  | nil => rfl
  | cons e rest ih =>
    have hrest : ∀ msg, WalkEntry.err msg ∉ rest := fun msg hm =>
      h msg (List.mem_cons_of_mem _ hm)
    cases e with
    | err msg => exact absurd (List.mem_cons_self _ _) (h msg)
    | ok path =>
      rw [walkRows]
      by_cases hx : path.ext = some "sigmf-meta"
      · rw [if_pos hx]
        cases hp : processFile env path with
        | ok rows =>
          rw [ih hrest]
          simp [entryBatches, hx, hp, Except.map]
        | error e =>
          rw [ih hrest]
          simp [entryBatches, hx, hp]
      · rw [if_neg hx, ih hrest]
        simp [entryBatches, hx]

/-- C8: during directory assembly a per-file parse or projection failure is
non-fatal — on a walk without traversal errors the assembler fails with
noValidFiles exactly when no file produced a row batch, and otherwise
returns the concatenation of all produced row batches in discovery
order. -/
theorem from_directory_partial_success (env : DirEnv)
    (entries : List WalkEntry) (h : ∀ msg, WalkEntry.err msg ∉ entries) :
    (entries.flatMap (entryBatches env) = [] →
      from_directory env entries = .error .noValidFiles) ∧
    (entries.flatMap (entryBatches env) ≠ [] →
      from_directory env entries =
        .ok (entries.flatMap (entryBatches env)).flatten) := by
  have hw := walkRows_eq_ok env entries h
  unfold from_directory
  rw [hw]
  constructor
  · intro he
    rw [he]
    rfl
  · intro he
    have hne : (entries.flatMap (entryBatches env)).isEmpty = false := by
      cases hq : entries.flatMap (entryBatches env) with
      | nil => exact absurd hq he
      | cons a t => rfl
    simp [hne]

/-- A traversal-error entry makes the walk loop return that error,
whatever was collected before it and whatever follows. -/
theorem walkRows_err (env : DirEnv) (pre rest : List WalkEntry)
    (msg : String) (h : ∀ m, WalkEntry.err m ∉ pre) :
    walkRows env (pre ++ WalkEntry.err msg :: rest) = .error (.walk msg) := by
  induction pre with
  | nil => rfl
  | cons e p ih =>
    have hp : ∀ m, WalkEntry.err m ∉ p := fun m hm =>
      h m (List.mem_cons_of_mem _ hm)
    cases e with
    | err m => exact absurd (List.mem_cons_self _ _) (h m)
    | ok path =>
      rw [List.cons_append, walkRows]
      by_cases hx : path.ext = some "sigmf-meta"
      · rw [if_pos hx]
        cases hpf : processFile env path with
        | ok rows => rw [ih hp]; rfl
        | error e => exact ih hp
      · rw [if_neg hx]
        exact ih hp

/-- C10: if the directory traversal itself yields an error entry,
from_directory aborts immediately with that traversal error, discarding any
rows collected from the files walked before it. -/
theorem from_directory_walk_error (env : DirEnv) (pre rest : List WalkEntry)
    (msg : String) (h : ∀ m, WalkEntry.err m ∉ pre) :
    from_directory env (pre ++ WalkEntry.err msg :: rest) =
      .error (.walk msg) := by
  unfold from_directory
  rw [walkRows_err env pre rest msg h]

/-! Concrete sample data for the witness theorems. -/

/-- Sample global metadata. -/
def g0 : GlobalInfo :=
  { datatype := "cf32_le", sample_rate := 1000, version := "1.0.0",
    description := none, author := none, license := none, hardware := none,
    geolocation := none }

/-- Sample metadata document with no annotations. -/
def metaOk : SigMFMetadata :=
  { global := g0, captures := [], annotations := none }

/-- An ML annotation (carries an ASK probability). -/
def annA : AnnotationInfo :=
  { annEmptyCustom with ask_prob := some 1, custom_classifier_probs := none }

/-- Another ML annotation (carries a PSK probability). -/
def annB : AnnotationInfo :=
  { annEmptyCustom with psk_prob := some 1, custom_classifier_probs := none }

/-- A parsed file with no annotations. -/
def pEmpty : SigMFParser :=
  { metadata := metaOk, data_type := .cf32Le,
    data_file_path := { stem := "rec", ext := some "sigmf-data" } }

/-- A parsed file with two ML annotations. -/
def pTwo : SigMFParser :=
  { metadata :=
      { global := g0, captures := [],
        annotations := some [annA, annB] },
    data_type := .cf32Le,
    data_file_path := { stem := "rec", ext := some "sigmf-data" } }

/-- Companion data file present, 16 bytes. -/
def fsOn : FsState := { dataExists := true, dataSize := 16 }

/-- The single row pEmpty projects under fsOn. -/
def rowE : SummaryRow :=
  pEmpty.create_single_row_dataframe "rec.sigmf-meta" "rec.sigmf-data" 2 16
    g0 none none none none

/-- Sample numeric parsers for the filter engine witnesses. -/
def env5 : ParseEnv :=
  { parseF64 := fun s => if s = "5" then some 5 else none,
    parseI64 := fun s => if s = "5" then some 5 else none }

/-- One active numeric filter. -/
def filters5 : List (String × String) := [("snr_db", "5")]

/-- One blank filter entry. -/
def filtersBlank : List (String × String) := [("snr_db", "")]

/-- A two-row dataset with one float column. -/
def ds5 : List Row := [[("snr_db", Cell.float 7)], [("snr_db", Cell.float 3)]]

/-- A fully successful single-file environment. -/
def env7 : MetaEnv :=
  { content := some "doc", parse := fun _ => some metaOk,
    fileExists := fun _ => true }

/-- A metadata-document path. -/
def path7 : FPath := { stem := "rec", ext := some "sigmf-meta" }

/-- A directory environment in which every metadata file parses. -/
def dirEnv0 : DirEnv :=
  { content := fun _ => some "doc", parse := fun _ => some metaOk,
    fileExists := fun _ => true, dataSize := fun _ => 16 }

/-- A walk yielding one metadata file and one unrelated file. -/
def entries0 : List WalkEntry :=
  [WalkEntry.ok path7, WalkEntry.ok { stem := "x", ext := some "txt" }]

/-! Witness theorems. -/

/-- Witness for C1 at a file with zero ML annotations and one with two. -/
theorem to_summary_rows_multiplicity_witness :
    ((pEmpty.to_summary_rows fsOn).length = 1 ∧
      ∀ r ∈ pEmpty.to_summary_rows fsOn, mlFields r = defaultMlFields) ∧
    ((pTwo.to_summary_rows fsOn).length = pTwo.ml_annotations.length ∧
      (∀ r ∈ pTwo.to_summary_rows fsOn, ∀ s ∈ pTwo.to_summary_rows fsOn,
        sharedFields r = sharedFields s) ∧
      (pTwo.to_summary_rows fsOn).map mlFields =
        pTwo.ml_annotations.map annMlFields) :=
  ⟨(to_summary_rows_multiplicity pEmpty fsOn).1 rfl,
   (to_summary_rows_multiplicity pTwo fsOn).2 (by
      rw [show pTwo.ml_annotations = [annA, annB] from rfl]
      exact List.cons_ne_nil _ _)⟩

/-- Witness for C3 at the concrete row of pEmpty. -/
theorem num_samples_eq_div_witness :
    rowE.num_samples =
      rowE.file_size_bytes / pEmpty.data_type.sample_size_bytes ∧
    (fsOn.dataExists = false →
      rowE.num_samples = 0 ∧ rowE.file_size_bytes = 0) ∧
    SigMFDataType.sample_size_bytes .cf32Le = 8 ∧
    SigMFDataType.sample_size_bytes .ci16Le = 4 :=
  num_samples_eq_div pEmpty fsOn rowE (List.Mem.head [])

/-- Witness for C4 at the concrete row of pEmpty. -/
theorem capture_fields_first_match_witness :
    rowE.center_freq_hz =
      ((pEmpty.metadata.captures.find? (fun c => c.frequency.isSome)).bind
        (fun c => c.frequency)).getD 0 ∧
    rowE.capture_datetime =
      ((pEmpty.metadata.captures.find? (fun c => c.timestamp.isSome)).bind
        (fun c => c.timestamp)).getD "" ∧
    rowE.gain =
      ((pEmpty.metadata.captures.find?
        (fun c => c.gain.isSome || c.agc.isSome)).bind
          (fun c => c.gain)).getD 0 ∧
    rowE.agc =
      ((pEmpty.metadata.captures.find?
        (fun c => c.gain.isSome || c.agc.isSome)).bind
          (fun c => c.agc)).getD false ∧
    rowE.sequence_num =
      ((pEmpty.metadata.captures.find?
        (fun c => c.gain.isSome || c.agc.isSome)).bind
          (fun c => c.sequence_num)).getD 0 :=
  capture_fields_first_match pEmpty fsOn rowE (List.Mem.head [])

/-- Witness for C6 at the concrete row of pEmpty. -/
theorem freq_edges_from_first_ann_witness :
    rowE.freq_lower_edge_hz =
      ((pEmpty.metadata.annotations.bind List.head?).bind
        (fun a => a.freq_lower_edge)).getD 0 ∧
    rowE.freq_upper_edge_hz =
      ((pEmpty.metadata.annotations.bind List.head?).bind
        (fun a => a.freq_upper_edge)).getD 0 :=
  freq_edges_from_first_ann pEmpty fsOn rowE (List.Mem.head [])

/-- Witness for C5 at a concrete dataset, one active filter, and one
all-blank filter mapping. -/
theorem apply_filters_dispatch_witness :
    ((∀ r, r ∈ apply_filters env5 filters5 ds5 ↔
        r ∈ ds5 ∧ rowPassesClaim env5 filters5 r) ∧
      ((∀ f ∈ filters5, f.2 = "") →
        apply_filters env5 filters5 ds5 = ds5)) ∧
    apply_filters env5 filtersBlank ds5 = ds5 :=
  ⟨apply_filters_dispatch env5 filters5 ds5,
   (apply_filters_dispatch env5 filtersBlank ds5).2 (by decide)⟩

/-- Witness for C9 at a concrete dataset and non-empty filter mapping. -/
theorem apply_filters_idempotent_witness :
    apply_filters env5 filters5 (apply_filters env5 filters5 ds5) =
      apply_filters env5 filters5 ds5 :=
  apply_filters_idempotent env5 filters5 (by decide) ds5

/-- Witness for C7: a fully successful parse, and the unsupported-datatype
failure at the concrete string foo_bar. -/
theorem from_meta_file_steps_witness :
    SigMFParser.from_meta_file env7 path7 =
      .ok { metadata := metaOk, data_type := .cf32Le,
            data_file_path := FPath.withExtension path7 "sigmf-data" } ∧
    SigMFDataType.from_string "foo_bar" =
      .error (.unsupportedDatatype "foo_bar") :=
  ⟨((from_meta_file_steps env7 path7).2.2.2.2.2 _).mpr
      ⟨"doc", metaOk, .cf32Le, rfl, rfl, rfl, rfl, rfl⟩,
   (from_meta_file_steps env7 path7).1 "foo_bar" (by decide) (by decide)⟩

/-- Witness for C8 at a concrete error-free walk with one valid metadata
file and one unrelated file. -/
theorem from_directory_partial_success_witness :
    (entries0.flatMap (entryBatches dirEnv0) = [] →
      from_directory dirEnv0 entries0 = .error .noValidFiles) ∧
    (entries0.flatMap (entryBatches dirEnv0) ≠ [] →
      from_directory dirEnv0 entries0 =
        .ok (entries0.flatMap (entryBatches dirEnv0)).flatten) :=
  from_directory_partial_success dirEnv0 entries0
    (by intro msg hm; simp [entries0] at hm)

/-- Witness for C10 at a concrete walk with one good entry before the
traversal error. -/
theorem from_directory_walk_error_witness :
    from_directory dirEnv0
      ([WalkEntry.ok path7] ++ WalkEntry.err "boom" :: []) =
        .error (.walk "boom") :=
  from_directory_walk_error dirEnv0 [WalkEntry.ok path7] [] "boom"
    (by intro m hm; simp at hm)

end Sigviewer
